import Mathlib

/-!
Verification of the parquet-viewer helper scripts.

Part 1 models the range-capable HTTP file server
(`utils/parquet-viewer.py`, class `CORSRequestHandler`): the `do_GET`
range logic (Python `str.replace`, `str.split`, `int()` parsing, the
`416`/`400`/`500` error selection, and `file.read`) and the `do_HEAD`
handler.  File contents are byte lists; the filesystem state at request
time is an `Option (List Nat)` (`none` models `FileNotFoundError`).
Constant response headers (CORS, `Accept-Ranges`, `Content-Type`,
`Content-Disposition`) and the HTML bodies of `send_error` responses are
not modelled; `status`, `Content-Range`, `Content-Length` and the body
bytes written are.

Part 2 models the control-channel session
(`src/bin/parquet_viewer.py`, `handle_connection` and `main`): the
acknowledgment wait loop over the incoming websocket messages and the
trace of externally visible actions (instruction sends, server
startup/shutdown, connection close).  The incoming stream is a finite
list of messages; its end models the peer closing the connection
(`websockets.exceptions.ConnectionClosed` raised by `recv`).
-/

/-- Whitespace accepted by Python `int()` / `str.strip` (ASCII subset). -/
def isPySpace (c : Char) : Bool :=
  c = ' ' || c = '\t' || c = '\n' || c = '\x0d' || c = '\x0b' || c = '\x0c'

/-- Python `str.strip()`: drop leading and trailing whitespace. -/
def pyStrip (cs : List Char) : List Char :=
  ((cs.dropWhile isPySpace).reverse.dropWhile isPySpace).reverse

/-- Value of a string of decimal digits, most significant first. -/
def digitsVal (cs : List Char) : Nat :=
  cs.foldl (fun n c => 10 * n + (c.toNat - 48)) 0

/-- Python `int(s)` on a character list: optional surrounding whitespace,
optional `+`/`-` sign, then a nonempty run of decimal digits; anything
else raises `ValueError`, modelled as `none`.  (PEP-515 underscore
grouping and non-ASCII decimal digits are not modelled; no request in
the claims uses them.) -/
def pyIntChars (cs : List Char) : Option Int :=
  match pyStrip cs with
  | [] => none
  | c :: ds =>
    if c = '+' then
      if ds = [] then none
      else if ds.all Char.isDigit then some (digitsVal ds) else none
    else if c = '-' then
      if ds = [] then none
      else if ds.all Char.isDigit then some (-(digitsVal ds : Int)) else none
    else if (c :: ds).all Char.isDigit then some (digitsVal (c :: ds)) else none

/-- Python `int(s)` on a string. -/
def pyInt (s : String) : Option Int := pyIntChars s.data

/-- Python `s.replace("bytes=", "")`: remove every non-overlapping
occurrence of `bytes=`, scanning left to right. -/
def stripBytesEq : List Char → List Char
  | 'b' :: 'y' :: 't' :: 'e' :: 's' :: '=' :: rest => stripBytesEq rest
  | c :: rest => c :: stripBytesEq rest
  | [] => []

/-- Python `s.split('-')`: split on every `-`, keeping empty pieces;
the result is always nonempty (`"".split('-') == ['']`). -/
def splitDash : List Char → List (List Char)
  | [] => [[]]
  | c :: rest =>
    if c = '-' then [] :: splitDash rest
    else (c :: (splitDash rest).headD []) :: (splitDash rest).tail

/-- Outcome of lines 45-47 of `do_GET`:
`range_match = range_header.replace('bytes=', '').split('-')`,
`range_start = int(range_match[0])`,
`range_end = int(range_match[1]) if range_match[1] else file_size - 1`.
`valueError` is a `ValueError` from `int()` (caught at line 56, → 400);
`indexError` is the `IndexError` from `range_match[1]` when the split
produced a single piece (uncaught by the inner handler, → 500). -/
inductive RangeParse where
  | ok (rstart rend : Int)
  | valueError
  | indexError
deriving DecidableEq, Repr

/-- The range-header parse of `do_GET`, in Python evaluation order:
`int(range_match[0])` first (ValueError), then the `range_match[1]`
index (IndexError), then the truthiness test of `range_match[1]`
(empty string → default end `file_size - 1`), then `int(range_match[1])`. -/
def parseRangeHeader (header : String) (fileSize : Nat) : RangeParse :=
  match splitDash (stripBytesEq header.data) with
  | [] => .indexError
  | p0 :: rest =>
    match pyIntChars p0 with
    | none => .valueError
    | some s =>
      match rest with
      | [] => .indexError
      | p1 :: _ =>
        if p1 = [] then .ok s ((fileSize : Int) - 1)
        else
          match pyIntChars p1 with
          | none => .valueError
          | some e => .ok s e

/-- The `Content-Range` header value built at line 54:
`f'bytes {range_start}-{range_end}/{file_size}'`. -/
def contentRangeStr (rstart rend : Int) (fileSize : Nat) : String :=
  "bytes " ++ toString rstart ++ "-" ++ toString rend ++ "/" ++ toString fileSize

/-- The modelled parts of an HTTP response: status code, the
`Content-Range` and `Content-Length` headers when sent, and the body
bytes written to the socket. -/
structure HttpResponse where
  status : Nat
  contentRange : Option String
  contentLength : Option Int
  body : List Nat
deriving DecidableEq, Repr

/-- A `send_error` response (no `Content-Range`/`Content-Length`
modelled, HTML error body not modelled). -/
def errResp (code : Nat) : HttpResponse :=
  { status := code, contentRange := none, contentLength := none, body := [] }

/-- Python `f.read(size)` after `f.seek(pos)`: a negative size reads to
end of file; otherwise at most `size` bytes are returned, fewer when
the file ends first. -/
def pyRead (data : List Nat) (pos : Nat) (size : Int) : List Nat :=
  if size < 0 then data.drop pos else (data.drop pos).take size.toNat

/-- Python `os.path.basename`: the part after the last `/`. -/
def pyBasename (s : String) : String :=
  ⟨(s.data.reverse.takeWhile (fun c => c ≠ '/')).reverse⟩

/-- `CORSRequestHandler.do_GET` for the server bound to `filePath`.
`file` is the filesystem state at request time (`none` ⇒
`FileNotFoundError`, caught → 404).  `rangeHeader` is
`self.headers.get('Range')`; the code tests its truthiness, so a
present-but-empty header behaves like an absent one. -/
def do_GET (filePath : String) (file : Option (List Nat)) (path : String)
    (rangeHeader : Option String) : HttpResponse :=
  if path = "/" ++ pyBasename filePath then
    match file with
    | none => errResp 404
    | some data =>
      let fileSize := data.length
      match rangeHeader with
      | none =>
        { status := 200, contentRange := none,
          contentLength := some (fileSize : Int), body := data }
      | some h =>
        if h = "" then
          { status := 200, contentRange := none,
            contentLength := some (fileSize : Int), body := data }
        else
          match parseRangeHeader h fileSize with
          | .valueError => errResp 400
          | .indexError => errResp 500
          | .ok s e =>
            if s ≥ (fileSize : Int) then errResp 416
            else
              { status := 206,
                contentRange := some (contentRangeStr s e fileSize),
                contentLength := some (e - s + 1),
                body := pyRead data s.toNat (e - s + 1) }
  else errResp 404

/-- `CORSRequestHandler.do_HEAD`: stats the file and reports its full
size; the request path is never inspected. -/
def do_HEAD (filePath : String) (file : Option (List Nat)) (path : String) :
    HttpResponse :=
  match file with
  | none => errResp 404
  | some data =>
    { status := 200, contentRange := none,
      contentLength := some ((data.length : Int)), body := [] }

/-- One message delivered by `websocket.recv()`: either text that
`json.loads` rejects (`JSONDecodeError`), or valid JSON whose
`.get("message_type")` yields the given optional string. -/
inductive WsMsg where
  | invalidJson
  | jsonMsg (messageType : Option String)
deriving DecidableEq, Repr

/-- The test at line 92: valid JSON with `message_type == "ack"`. -/
def isAck : WsMsg → Bool
  | .jsonMsg (some t) => t = "ack"
  | _ => false

/-- The acknowledgment wait loop (lines 87-102) on the incoming
message stream: `true` when the loop exits via `break` (ack received),
`false` when the stream ends first — the peer closed the connection and
`recv` raised `ConnectionClosed`, which the loop re-raises. -/
def ackLoop : List WsMsg → Bool
  | [] => false
  | m :: rest => if isAck m then true else ackLoop rest

/-- The messages the wait loop actually receives (and logs): every
message up to and including the first ack, or the whole stream when no
ack arrives before the peer disconnects. -/
def ackLoopReads : List WsMsg → List WsMsg
  | [] => []
  | m :: rest => if isAck m then [m] else m :: ackLoopReads rest

/-- Externally visible actions of `handle_connection` / `main`, in
program order. -/
inductive Event where
  | sendSql (query : String)
  | startHttp (port : Nat)
  | sendFileMsg (fileName : String) (port : Nat)
  | closeWs
  | httpShutdown
  | httpServerClose
  | wsListenerClose
deriving DecidableEq, Repr

/-- The configuration `handle_connection` is called with: the optional
SQL query, the optional parquet file path, whether `os.path.exists`
holds for that path at connection time, and the port `find_free_port`
returns. -/
structure SessionConfig where
  sqlQuery : Option String
  parquetFile : Option String
  fileExists : Bool
  httpPort : Nat

/-- Event trace of `handle_connection(websocket, sql_query,
parquet_file, server)` (lines 47-118) on the incoming stream `msgs`.
In file-mode with a missing file the handler closes the websocket and
returns (lines 63-66).  After the wait loop exits via ack it closes the
websocket, shuts down the HTTP server when one was started, and closes
the websocket listener (lines 104-113).  When the stream ends without an
ack, `ConnectionClosed` propagates to the handler at line 115, which
only logs: none of those teardown lines run. -/
def handle_connection (cfg : SessionConfig) (msgs : List WsMsg) : List Event :=
  let sqlEvs : List Event :=
    match cfg.sqlQuery with
    | some q => [Event.sendSql q]
    | none => []
  match cfg.parquetFile with
  | some f =>
    if cfg.fileExists then
      let fileEvs := [Event.startHttp cfg.httpPort,
                      Event.sendFileMsg (pyBasename f) cfg.httpPort]
      if ackLoop msgs then
        sqlEvs ++ fileEvs ++
          [Event.closeWs, Event.httpShutdown, Event.httpServerClose,
           Event.wsListenerClose]
      else
        sqlEvs ++ fileEvs
    else
      sqlEvs ++ [Event.closeWs]
  | none =>
    if ackLoop msgs then sqlEvs ++ [Event.closeWs, Event.wsListenerClose]
    else sqlEvs

/-- Event trace of one whole session: `main` awaits
`handle_connection`, then `done` is set and `main` closes the websocket
listener unconditionally (lines 124-137). -/
def main_session (cfg : SessionConfig) (msgs : List WsMsg) : List Event :=
  handle_connection cfg msgs ++ [Event.wsListenerClose]

/-- No piece produced by `splitDash` contains the separator. -/
lemma splitDash_no_dash : ∀ (cs : List Char), ∀ p ∈ splitDash cs, '-' ∉ p := by
  intro cs
  induction cs with
  | nil =>
    intro p hp
    simp only [splitDash, List.mem_singleton] at hp
    simp [hp]
  | cons c rest ih =>
    intro p hp
    simp only [splitDash] at hp
    by_cases hc : c = '-'
    · rw [if_pos hc] at hp
      rcases List.mem_cons.mp hp with h | h
      · simp [h]
      · exact ih p h
    · rw [if_neg hc] at hp
      rcases List.mem_cons.mp hp with h | h
      · subst h
        intro hmem
        rcases List.mem_cons.mp hmem with h1 | h1
        · exact hc h1.symm
        · cases hr : splitDash rest with
          | nil => rw [hr] at h1; simp at h1
          | cons q qs =>
            rw [hr] at h1
            exact ih q (by rw [hr]; exact List.mem_cons_self q qs) h1
      · cases hr : splitDash rest with
        | nil => rw [hr] at h; simp at h
        | cons q qs =>
          rw [hr] at h
          simp only [List.tail_cons] at h
          exact ih p (by rw [hr]; exact List.mem_cons_of_mem q h)

/-- `pyStrip` only removes characters. -/
lemma mem_pyStrip {c : Char} {cs : List Char} (h : c ∈ pyStrip cs) : c ∈ cs := by
  unfold pyStrip at h
  rw [List.mem_reverse] at h
  have h1 := (List.dropWhile_sublist isPySpace
    (l := (cs.dropWhile isPySpace).reverse)).subset h
  rw [List.mem_reverse] at h1
  exact (List.dropWhile_sublist isPySpace (l := cs)).subset h1

/-- Successful `int()` on a string containing no minus sign is a
nonnegative integer. -/
lemma pyIntChars_nonneg {cs : List Char} (hnd : '-' ∉ cs) {v : Int}
    (hv : pyIntChars cs = some v) : 0 ≤ v := by
  unfold pyIntChars at hv
  split at hv
  next => simp at hv
  next c ds heq =>
    have hcin : c ∈ cs := mem_pyStrip (by rw [heq]; exact List.mem_cons_self c ds)
    split at hv
    next hplus =>
      split at hv
      next => simp at hv
      next =>
        split at hv
        next =>
          injection hv with h
          subst h
          exact Int.natCast_nonneg _
        next => simp at hv
    next hplus =>
      split at hv
      next hminus => exact absurd (hminus ▸ hcin) hnd
      next hminus =>
        split at hv
        next =>
          injection hv with h
          subst h
          exact Int.natCast_nonneg _
        next => simp at hv

/-- A successfully parsed `Range` start is nonnegative: after splitting
on `-`, no piece contains a minus sign, so `int()` cannot produce a
negative value. -/
lemma parseRangeHeader_ok_nonneg {h : String} {n : Nat} {s e : Int}
    (hp : parseRangeHeader h n = .ok s e) : 0 ≤ s := by
  unfold parseRangeHeader at hp
  split at hp
  next => simp at hp
  next p0 rest heq =>
    have hnd : '-' ∉ p0 :=
      splitDash_no_dash _ p0 (by rw [heq]; exact List.mem_cons_self _ _)
    split at hp
    next => simp at hp
    next s0 hi =>
      have hs0 : 0 ≤ s0 := pyIntChars_nonneg hnd hi
      split at hp
      next => simp at hp
      next p1 ps =>
        split at hp
        next =>
          injection hp with h2 h3
          exact h2 ▸ hs0
        next =>
          split at hp
          next => simp at hp
          next e0 h2 =>
            injection hp with h3 h4
            exact h3 ▸ hs0

/-- The empty header text parses to a `ValueError` (`int('')` fails). -/
lemma parseRangeHeader_empty (n : Nat) : parseRangeHeader "" n = .valueError := rfl

/-- A header that parses successfully is not the empty string. -/
lemma parseRangeHeader_ok_ne_empty {h : String} {n : Nat} {s e : Int}
    (hp : parseRangeHeader h n = .ok s e) : h ≠ "" := by
  intro h0
  rw [h0, parseRangeHeader_empty] at hp
  simp at hp

/-- Reduction of `do_GET` to the 206 branch: correct path, file
present, nonempty `Range` header whose parse succeeded with
`range_start < file_size`. -/
lemma do_GET_206 (filePath h : String) (data : List Nat) (s e : Int)
    (hp : parseRangeHeader h data.length = .ok s e)
    (hs : s < (data.length : Int)) :
    do_GET filePath (some data) ("/" ++ pyBasename filePath) (some h) =
      { status := 206,
        contentRange := some (contentRangeStr s e data.length),
        contentLength := some (e - s + 1),
        body := pyRead data s.toNat (e - s + 1) } := by
  have hne : h ≠ "" := parseRangeHeader_ok_ne_empty hp
  simp [do_GET, hp, hne, not_le.mpr hs]

example : parseRangeHeader "bytes=1-2" 4 = .ok 1 2 := by decide
example : parseRangeHeader "bytes=5-" 3 = .ok 5 2 := by decide
example : parseRangeHeader "bytes=5" 3 = .indexError := by decide
example : parseRangeHeader "bytes=abc-2" 3 = .valueError := by decide
example : parseRangeHeader "bytes=0-" 0 = .ok 0 (-1) := by decide
example :
    do_GET "dir/a.parquet" (some [10, 20, 30, 40]) "/a.parquet" (some "bytes=1-2") =
      { status := 206, contentRange := some "bytes 1-2/4",
        contentLength := some 2, body := [20, 30] } := by decide

/-- Claim C1: for every served file and every range request whose parsed
bounds satisfy `0 <= start <= end < fileSize`, `do_GET` responds with
status 206, `Content-Range: bytes <start>-<end>/<fileSize>`,
`Content-Length = end - start + 1`, and a body whose bytes equal the
file contents from offset `start` through offset `end` inclusive. -/
theorem range_request_valid_bounds (filePath h : String) (data : List Nat)
    (s e : Int) (hp : parseRangeHeader h data.length = .ok s e)
    (h0 : 0 ≤ s) (hse : s ≤ e) (hend : e < (data.length : Int)) :
    (do_GET filePath (some data) ("/" ++ pyBasename filePath) (some h)).status = 206 ∧
    (do_GET filePath (some data) ("/" ++ pyBasename filePath) (some h)).contentRange =
      some (contentRangeStr s e data.length) ∧
    (do_GET filePath (some data) ("/" ++ pyBasename filePath) (some h)).contentLength =
      some (e - s + 1) ∧
    (do_GET filePath (some data) ("/" ++ pyBasename filePath) (some h)).body.length =
      (e - s + 1).toNat ∧
    ∀ i : Nat, i < (e - s + 1).toNat →
      (do_GET filePath (some data) ("/" ++ pyBasename filePath) (some h)).body[i]? =
        data[s.toNat + i]? := by
  rw [do_GET_206 filePath h data s e hp (lt_of_le_of_lt hse hend)]
  have hsz : ¬ (e - s + 1 < 0) := by omega
  refine ⟨rfl, rfl, rfl, ?_, ?_⟩
  · simp only [pyRead, if_neg hsz, List.length_take, List.length_drop]
    omega
  · intro i hi
    simp only [pyRead, if_neg hsz]
    rw [List.getElem?_take, if_pos hi, List.getElem?_drop]

/-- Witness for C1: file `[10, 20, 30, 40]`, request `bytes=1-2`. -/
theorem range_request_valid_bounds_witness :
    (do_GET "d/a.parquet" (some [10, 20, 30, 40])
        ("/" ++ pyBasename "d/a.parquet") (some "bytes=1-2")).status = 206 ∧
    (do_GET "d/a.parquet" (some [10, 20, 30, 40])
        ("/" ++ pyBasename "d/a.parquet") (some "bytes=1-2")).contentLength = some 2 :=
  ⟨(range_request_valid_bounds "d/a.parquet" "bytes=1-2" [10, 20, 30, 40] 1 2
      (by decide) (by decide) (by decide) (by decide)).1,
   (range_request_valid_bounds "d/a.parquet" "bytes=1-2" [10, 20, 30, 40] 1 2
      (by decide) (by decide) (by decide) (by decide)).2.2.1⟩

/-- Claim C2: every range request whose parsed start satisfies
`start >= fileSize` gets a 416, whatever the parsed end is (the
default `fileSize - 1` from an empty end included). -/
theorem range_request_start_past_eof (filePath h : String) (data : List Nat)
    (s e : Int) (hp : parseRangeHeader h data.length = .ok s e)
    (hge : (data.length : Int) ≤ s) :
    (do_GET filePath (some data) ("/" ++ pyBasename filePath) (some h)).status = 416 := by
  have hne : h ≠ "" := parseRangeHeader_ok_ne_empty hp
  simp [do_GET, errResp, hp, hne, hge]

/-- Witness for C2: file of size 3, request `bytes=7-` (empty end). -/
theorem range_request_start_past_eof_witness :
    (do_GET "a.parquet" (some [1, 2, 3])
        ("/" ++ pyBasename "a.parquet") (some "bytes=7-")).status = 416 :=
  range_request_start_past_eof "a.parquet" "bytes=7-" [1, 2, 3] 7 2
    (by decide) (by decide)

/-- Claim C3 counterexample: the header `bytes=5` is malformed
(numeric start but no `-` separator, so it does not match
`bytes=<start>-[<end>]`), yet the response is 500 — lines 45-47 raise
`IndexError` on `range_match[1]`, which the inner `except ValueError`
does not catch, so the outer `except Exception` answers
`500 Internal server error`, not `400 Invalid range header`. -/
theorem malformed_range_no_dash_is_500 :
    (do_GET "a.parquet" (some [1, 2, 3]) "/a.parquet" (some "bytes=5")).status = 500 ∧
    (do_GET "a.parquet" (some [1, 2, 3]) "/a.parquet" (some "bytes=5")).status ≠ 400 := by
  decide

/-- Claim C3 (amended): on the correct path with a nonempty `Range`
header, a parse failing with `ValueError` (non-numeric or empty start,
or non-numeric nonempty end) gets `400 Invalid range header`, while a
header whose split has no second piece (no `-` at all) raises
`IndexError` and gets a generic 500. -/
theorem malformed_range_status (filePath h : String) (data : List Nat)
    (hne : h ≠ "") :
    (parseRangeHeader h data.length = .valueError →
      (do_GET filePath (some data) ("/" ++ pyBasename filePath) (some h)).status = 400) ∧
    (parseRangeHeader h data.length = .indexError →
      (do_GET filePath (some data) ("/" ++ pyBasename filePath) (some h)).status = 500) := by
  constructor
  · intro hp
    simp [do_GET, errResp, hp, hne]
  · intro hp
    simp [do_GET, errResp, hp, hne]

/-- Witness for the amended C3: `bytes=x-2` → 400, `bytes=5` → 500. -/
theorem malformed_range_status_witness :
    (do_GET "a.parquet" (some [1, 2, 3])
        ("/" ++ pyBasename "a.parquet") (some "bytes=x-2")).status = 400 ∧
    (do_GET "a.parquet" (some [1, 2, 3])
        ("/" ++ pyBasename "a.parquet") (some "bytes=5")).status = 500 :=
  ⟨(malformed_range_status "a.parquet" "bytes=x-2" [1, 2, 3] (by decide)).1 (by decide),
   (malformed_range_status "a.parquet" "bytes=5" [1, 2, 3] (by decide)).2 (by decide)⟩

/-- Claim C4 counterexample: `do_HEAD` performs no path validation.
Serving `a.parquet`, a HEAD request for `/other` (a path different from
`/a.parquet`) is answered 200 with the full file size, not 404. -/
theorem head_wrong_path_is_200 :
    "/other" ≠ "/" ++ pyBasename "a.parquet" ∧
    (do_HEAD "a.parquet" (some [5]) "/other").status = 200 ∧
    (do_HEAD "a.parquet" (some [5]) "/other").status ≠ 404 := by
  decide

/-- Claim C4 (amended): for every request path other than
`'/' + basename(servedFile)`, `do_GET` responds 404 independent of the
`Range` header and of the file's existence; `do_HEAD` however never
inspects the path: it responds 200 (full size) whenever the file
exists, and 404 only when the file is missing. -/
theorem wrong_path_404_get_only (filePath path : String)
    (file : Option (List Nat)) (range : Option String) (data : List Nat)
    (hp : path ≠ "/" ++ pyBasename filePath) :
    (do_GET filePath file path range).status = 404 ∧
    (do_HEAD filePath (some data) path).status = 200 ∧
    (do_HEAD filePath none path).status = 404 := by
  refine ⟨?_, rfl, rfl⟩
  simp [do_GET, errResp, hp]

/-- Witness for the amended C4. -/
theorem wrong_path_404_get_only_witness :
    (do_GET "a.parquet" (some [5]) "/other" (some "bytes=0-0")).status = 404 ∧
    (do_HEAD "a.parquet" (some [7]) "/other").status = 200 ∧
    (do_HEAD "a.parquet" none "/other").status = 404 :=
  wrong_path_404_get_only "a.parquet" "/other" (some [5]) (some "bytes=0-0") [7]
    (by decide)

/-- Claim C5: a GET for the correct path with no `Range` header on an
existing file responds 200 with `Content-Length = fileSize` and the
entire file as body — including `fileSize = 0`, where the body is
empty. -/
theorem get_no_range_full_file (filePath : String) (data : List Nat) :
    do_GET filePath (some data) ("/" ++ pyBasename filePath) none =
      { status := 200, contentRange := none,
        contentLength := some (data.length : Int), body := data } := by
  simp [do_GET]

/-- Claim C7: when the parsed bounds satisfy
`start < fileSize <= end`, `do_GET` does not clamp: it answers 206 with
`Content-Length = end - start + 1` and a `Content-Range` built from the
client-supplied end, while the body actually written is only the bytes
from `start` to end of file — `fileSize - start` bytes, strictly fewer
than the declared `Content-Length`. -/
theorem range_request_end_not_clamped (filePath h : String) (data : List Nat)
    (s e : Int) (hp : parseRangeHeader h data.length = .ok s e)
    (hs : s < (data.length : Int)) (he : (data.length : Int) ≤ e) :
    (do_GET filePath (some data) ("/" ++ pyBasename filePath) (some h)).status = 206 ∧
    (do_GET filePath (some data) ("/" ++ pyBasename filePath) (some h)).contentRange =
      some (contentRangeStr s e data.length) ∧
    (do_GET filePath (some data) ("/" ++ pyBasename filePath) (some h)).contentLength =
      some (e - s + 1) ∧
    (do_GET filePath (some data) ("/" ++ pyBasename filePath) (some h)).body =
      data.drop s.toNat ∧
    ((do_GET filePath (some data) ("/" ++ pyBasename filePath) (some h)).body.length : Int) =
      (data.length : Int) - s ∧
    ((do_GET filePath (some data) ("/" ++ pyBasename filePath) (some h)).body.length : Int) <
      e - s + 1 := by
  have h0 : 0 ≤ s := parseRangeHeader_ok_nonneg hp
  rw [do_GET_206 filePath h data s e hp hs]
  have hsz : ¬ (e - s + 1 < 0) := by omega
  have hbody : pyRead data s.toNat (e - s + 1) = data.drop s.toNat := by
    simp only [pyRead, if_neg hsz]
    apply List.take_of_length_le
    simp only [List.length_drop]
    omega
  refine ⟨rfl, rfl, rfl, hbody, ?_, ?_⟩
  · rw [hbody]
    simp only [List.length_drop]
    omega
  · rw [hbody]
    simp only [List.length_drop]
    omega

/-- Witness for C7: file of size 4, request `bytes=2-9` (end past EOF):
declared length 8, actual body the last 2 bytes. -/
theorem range_request_end_not_clamped_witness :
    (do_GET "a.parquet" (some [1, 2, 3, 4])
        ("/" ++ pyBasename "a.parquet") (some "bytes=2-9")).contentLength = some 8 ∧
    (do_GET "a.parquet" (some [1, 2, 3, 4])
        ("/" ++ pyBasename "a.parquet") (some "bytes=2-9")).body = [3, 4] :=
  ⟨(range_request_end_not_clamped "a.parquet" "bytes=2-9" [1, 2, 3, 4] 2 9
      (by decide) (by decide) (by decide)).2.2.1,
   (range_request_end_not_clamped "a.parquet" "bytes=2-9" [1, 2, 3, 4] 2 9
      (by decide) (by decide) (by decide)).2.2.2.1.trans (by decide)⟩

/-- Claim C10: on a zero-size file, every request on the correct path
whose `Range` header parses successfully is answered 416, because the
parsed start is necessarily nonnegative and `fileSize = 0`; the file is
retrievable only with no `Range` header, which yields 200 and the empty
body. -/
theorem empty_file_range_always_416 (filePath h : String) (s e : Int)
    (hp : parseRangeHeader h 0 = .ok s e) :
    (do_GET filePath (some ([] : List Nat)) ("/" ++ pyBasename filePath)
      (some h)).status = 416 ∧
    do_GET filePath (some ([] : List Nat)) ("/" ++ pyBasename filePath) none =
      { status := 200, contentRange := none, contentLength := some 0,
        body := [] } := by
  have h0 : 0 ≤ s := parseRangeHeader_ok_nonneg hp
  have hne : h ≠ "" := parseRangeHeader_ok_ne_empty hp
  constructor
  · simp [do_GET, errResp, hne, hp, h0]
  · simp [do_GET]

/-- Witness for C10: request `bytes=0-` on the empty file. -/
theorem empty_file_range_always_416_witness :
    (do_GET "a.parquet" (some ([] : List Nat))
        ("/" ++ pyBasename "a.parquet") (some "bytes=0-")).status = 416 :=
  (empty_file_range_always_416 "a.parquet" "bytes=0-" 0 (-1) (by decide)).1

/-- Claim C6: the acknowledgment wait loop terminates exactly when some
incoming message is valid JSON with `message_type == "ack"`; every
earlier message (invalid JSON or other tag) is received and skipped,
and the first correctly tagged message ends the wait. -/
theorem ack_wait_loop_spec (msgs : List WsMsg) :
    (ackLoop msgs = true ↔ ∃ m ∈ msgs, isAck m = true) ∧
    ackLoopReads msgs =
      msgs.takeWhile (fun m => !(isAck m)) ++
        (msgs.dropWhile (fun m => !(isAck m))).take 1 := by
  induction msgs with
  | nil => simp [ackLoop, ackLoopReads]
  | cons m rest ih =>
    cases hm : isAck m with
    | true =>
      constructor
      · simp [ackLoop, hm]
      · simp [ackLoopReads, List.takeWhile_cons, List.dropWhile_cons, hm]
    | false =>
      constructor
      · rw [show ackLoop (m :: rest) = ackLoop rest by simp [ackLoop, hm]]
        rw [ih.1]
        simp [hm]
      · simp [ackLoopReads, List.takeWhile_cons, List.dropWhile_cons, hm, ih.2]

/-- Claim C8: in file-mode (no SQL query), when the configured file does
not exist at connection time, `handle_connection` closes the websocket
and returns; in particular no `FileInstruction` message is ever sent
(and no HTTP server is started). -/
theorem file_mode_missing_file_closes (cfg : SessionConfig) (msgs : List WsMsg)
    (f : String) (hq : cfg.sqlQuery = none) (hf : cfg.parquetFile = some f)
    (hm : cfg.fileExists = false) :
    handle_connection cfg msgs = [Event.closeWs] ∧
    ∀ name port, Event.sendFileMsg name port ∉ handle_connection cfg msgs := by
  have h1 : handle_connection cfg msgs = [Event.closeWs] := by
    simp [handle_connection, hq, hf, hm]
  refine ⟨h1, ?_⟩
  intro name port
  rw [h1]
  simp

/-- Witness for C8. -/
theorem file_mode_missing_file_closes_witness :
    handle_connection ⟨none, some "missing.parquet", false, 9⟩ [] =
      [Event.closeWs] :=
  (file_mode_missing_file_closes ⟨none, some "missing.parquet", false, 9⟩ []
    "missing.parquet" rfl rfl rfl).1

/-- Claim C9 counterexample: a file-mode session over an existing file
where the peer closes the control connection before any ack (empty
message stream) ends with the websocket listener closed by `main`, but
the trace contains no `httpShutdown`: `ConnectionClosed` propagates to
the handler of line 115, which only logs, so `http_server.shutdown()`
(line 109) never runs and the RangeFileServer is left running. -/
theorem disconnect_leaves_http_running :
    Event.httpShutdown ∉
      main_session ⟨none, some "a.parquet", true, 8000⟩ [] := by decide

/-- Claim C9 (amended): in a file-mode session over an existing file,
the websocket listener is always closed before control returns to the
entrypoint; but the HTTP server is shut down (before the listener
close) only when the session ends by a valid acknowledgment — when the
peer disconnects first, no `httpShutdown` occurs. -/
theorem session_teardown (f : String) (p : Nat) (msgs : List WsMsg) :
    (ackLoop msgs = true →
      main_session ⟨none, some f, true, p⟩ msgs =
        [Event.startHttp p, Event.sendFileMsg (pyBasename f) p, Event.closeWs,
         Event.httpShutdown, Event.httpServerClose, Event.wsListenerClose,
         Event.wsListenerClose]) ∧
    (ackLoop msgs = false →
      main_session ⟨none, some f, true, p⟩ msgs =
        [Event.startHttp p, Event.sendFileMsg (pyBasename f) p,
         Event.wsListenerClose]) := by
  constructor
  · intro ha
    simp [main_session, handle_connection, ha]
  · intro ha
    simp [main_session, handle_connection, ha]

/-- Witness for the amended C9: an immediate ack versus an immediate
disconnect. -/
theorem session_teardown_witness :
    main_session ⟨none, some "a.parquet", true, 8000⟩
        [WsMsg.jsonMsg (some "ack")] =
      [Event.startHttp 8000, Event.sendFileMsg (pyBasename "a.parquet") 8000,
       Event.closeWs, Event.httpShutdown, Event.httpServerClose,
       Event.wsListenerClose, Event.wsListenerClose] ∧
    main_session ⟨none, some "a.parquet", true, 8000⟩ [] =
      [Event.startHttp 8000, Event.sendFileMsg (pyBasename "a.parquet") 8000,
       Event.wsListenerClose] :=
  ⟨(session_teardown "a.parquet" 8000 [WsMsg.jsonMsg (some "ack")]).1 (by decide),
   (session_teardown "a.parquet" 8000 []).2 (by decide)⟩
